import Mathlib

/-!
Verification development for the SAR planning agent
(`src/sar_project/agents/planning_agent.py`).

The Python source is shallowly embedded below.  Python `dict`s with string
keys and integer values become insertion-ordered association lists with the
`dget`/`dset` operations mirroring `d.get(k, default)` and `d[k] = v`;
Python `int` becomes `Int`; Python strings become `String`, with the string
operations used by the source (`split(',')`, `strip()`, `lower()`, the `in`
substring test) re-implemented over character lists so that they compute in
the kernel; Python `float` arithmetic in the radius estimator becomes `ℚ`
(every constant involved is a dyadic rational, so the two agree exactly);
external collaborator calls (the generative-model call, the weather lookup)
become explicit parameters, with `Option`/`Except` standing for
raised-exception versus returned-value outcomes.
-/

/-! ## Python string primitives -/

/-- Auxiliary for `pySplitComma`: accumulates the current chunk (reversed). -/
def splitCommaAux : List Char → List Char → List String
  | [], acc => [String.mk acc.reverse]
  | c :: rest, acc =>
      if c = ',' then String.mk acc.reverse :: splitCommaAux rest []
      else splitCommaAux rest (c :: acc)

/-- Python `s.split(',')`: note `"".split(',') == ['']`. -/
def pySplitComma (s : String) : List String := splitCommaAux s.data []

/-- Drop leading whitespace characters. -/
def dropLeadingWs : List Char → List Char
  | [] => []
  | c :: rest => if c.isWhitespace then dropLeadingWs rest else c :: rest

/-- Python `s.strip()` (ASCII whitespace). -/
def pyStrip (s : String) : String :=
  String.mk ((dropLeadingWs (dropLeadingWs s.data).reverse).reverse)

/-- Python `s.lower()` (ASCII letters, which is all the source compares). -/
def pyLower (s : String) : String := String.mk (s.data.map Char.toLower)

/-- Auxiliary for `hasSub`: does the first list begin the second? -/
def beginsWith : List Char → List Char → Bool
  | [], _ => true
  | _ :: _, [] => false
  | a :: as, b :: bs => a = b && beginsWith as bs

/-- Auxiliary for `strContains` over character lists. -/
def hasSub (needle : List Char) : List Char → Bool
  | [] => beginsWith needle []
  | c :: rest => beginsWith needle (c :: rest) || hasSub needle rest

/-- Python `needle in haystack` (substring containment). -/
def strContains (haystack needle : String) : Bool := hasSub needle.data haystack.data

/-! ## Python dicts with string keys and integer values -/

/-- A Python dict with string keys and `int` values, modelled as an
insertion-ordered association list with unique keys. -/
abbrev PyDict := List (String × Int)

/-- Python `d.get(k, default)`. -/
def dget : PyDict → String → Int → Int
  | [], _, d => d
  | p :: rest, k, d => if p.1 = k then p.2 else dget rest k d

/-- Python `d[k] = v`: replace the (first) binding of `k`, else append. -/
def dset : PyDict → String → Int → PyDict
  | [], k, v => [(k, v)]
  | p :: rest, k, v => if p.1 = k then (k, v) :: rest else p :: dset rest k v

/-! ## Data model -/

/-- A prioritized search area `{area, priority, rationale}` (spec §3). -/
structure PrioritizedArea where
  area : String
  priority : String
  rationale : String
deriving Repr, DecidableEq

/-- An allocation entry `{area, suggested_resources, rationale}` (spec §3). -/
structure AllocationEntry where
  area : String
  suggested_resources : List String
  rationale : String
deriving Repr, DecidableEq

/-- The logistics record: `logistics_data["available_resources"]`. -/
structure LogisticsData where
  available_resources : PyDict
deriving Repr, DecidableEq

/-! ## Resource Allocation Engine (`_suggest_resource_allocation`, lines 60-151) -/

/-- The per-priority demand table `resource_needs` (lines 68-72); `none`
models a priority absent from the dict (`priority in resource_needs` false). -/
def resource_needs (priority : String) : Option (List (String × Int)) :=
  if priority = "High" then some [("ground_teams", 2), ("search_dogs", 1), ("uavs", 1)]
  else if priority = "Medium" then some [("ground_teams", 1), ("search_dogs", 0), ("uavs", 1)]
  else if priority = "Low" then some [("ground_teams", 1), ("search_dogs", 0), ("uavs", 0)]
  else none

/-- Line 92: `"team" if "team" in resource_type else "unit"`. -/
def resource_unit (resource_type : String) : String :=
  if strContains resource_type "team" then "team" else "unit"

/-- Inner loop over `needs.items()` (lines 87-103): returns the
`suggested_resources` strings, the `rationale_parts`, and the updated
`allocated_resources` dict. -/
def allocateForNeeds (available_resources : PyDict) (area_name priority : String) :
    List (String × Int) → PyDict → List String × List String × PyDict
  | [], allocated => ([], [], allocated)
  | (resource_type, quantity_needed) :: rest, allocated =>
      let available := dget available_resources resource_type 0
      let can_allocate := min quantity_needed (available - dget allocated resource_type 0)
      if can_allocate > 0 then
        let allocated1 := dset allocated resource_type
          (dget allocated resource_type 0 + can_allocate)
        let sugg := toString can_allocate ++ " " ++ resource_unit resource_type ++
          "(s) (" ++ resource_type ++ ")"
        let rat := "Allocated " ++ toString can_allocate ++ " " ++
          resource_unit resource_type ++ "(s) of " ++ resource_type ++
          " based on " ++ priority ++ " priority and availability."
        let extras : List String :=
          if strContains (pyLower area_name) "forested" ∧ resource_type = "uavs" then
            ["Thermal drones are useful for detecting heat signatures in dense foliage."]
          else if strContains (pyLower area_name) "water" ∧ resource_type = "ground_teams" then
            ["Ground teams may be needed to search near water edges."]
          else if strContains (pyLower area_name) "trail" ∧ resource_type = "search_dogs" then
            ["Search dogs can effectively track scents along trails."]
          else []
        let r := allocateForNeeds available_resources area_name priority rest allocated1
        (sugg :: r.1, (rat :: extras) ++ r.2.1, r.2.2)
      else
        allocateForNeeds available_resources area_name priority rest allocated

/-- One iteration of the loop body `for area in prioritized_areas`
(lines 79-126): the (zero or one) entries appended for this area, and the
updated `allocated_resources`. -/
def areaEntry (available_resources : PyDict) (allocated : PyDict)
    (area : PrioritizedArea) : List AllocationEntry × PyDict :=
  let priority := area.priority
  let area_name := area.area
  let r :=
    match resource_needs priority with
    | some needs => allocateForNeeds available_resources area_name priority needs allocated
    | none => ([], [], allocated)
  let suggested_resources := r.1
  let rationale_parts := r.2.1
  let allocated1 := r.2.2
  if suggested_resources ≠ [] then
    ([{ area := area_name,
        suggested_resources := suggested_resources,
        rationale :=
          if rationale_parts ≠ [] then " ".intercalate rationale_parts
          else "Allocated resources based on priority: " ++ priority ++ "." }],
     allocated1)
  else if priority = "High" then
    let available_ground_teams := dget available_resources "ground_teams" 0
    let allocated_ground_teams := dget allocated1 "ground_teams" 0
    let remaining_ground_teams := available_ground_teams - allocated_ground_teams
    if remaining_ground_teams > 0 then
      let allocate_count := min 1 remaining_ground_teams
      let allocated2 := dset allocated1 "ground_teams"
        (dget allocated1 "ground_teams" 0 + allocate_count)
      ([{ area := area_name,
          suggested_resources := [toString allocate_count ++ " team(s) (ground_teams)"],
          rationale := "High priority area, allocating remaining ground team." }],
       allocated2)
    else ([], allocated1)
  else ([], allocated1)

/-- Fold step: append this area's entries to the accumulated suggestions. -/
def processArea (available_resources : PyDict)
    (acc : List AllocationEntry × PyDict) (area : PrioritizedArea) :
    List AllocationEntry × PyDict :=
  let r := areaEntry available_resources acc.2 area
  (acc.1 ++ r.1, r.2)

/-- The main pass over `prioritized_areas` (lines 77-126), starting from
`allocated_resources = {resource: 0 for resource in available_resources}`. -/
def mainPass (available_resources : PyDict) (prioritized_areas : List PrioritizedArea) :
    List AllocationEntry × PyDict :=
  prioritized_areas.foldl (processArea available_resources)
    ([], available_resources.map (fun p => (p.1, 0)))

/-- Lines 129-133: the `remaining_resources` dict. -/
def computeRemaining (available_resources allocated : PyDict) : PyDict :=
  available_resources.foldl
    (fun acc p =>
      let remaining := p.2 - dget allocated p.1 0
      if remaining > 0 then dset acc p.1 remaining else acc) []

/-- Line 136: the leftover render string.  NOTE: the source's f-string reads
`{count} {resource if 'team' in resource else 'unit'}(s) ({resource})`, i.e.
the conditional yields the resource *name* (not the word `"team"`) when the
name contains `"team"`. -/
def leftoverString (resource : String) (count : Int) : String :=
  toString count ++ " " ++ (if strContains resource "team" then resource else "unit") ++
    "(s) (" ++ resource ++ ")"

/-- `sum(resource_counts.values())` where `resource_counts` ranges over the
tracked catalogue `["ground_teams", "search_dogs", "uavs"]` (lines 66, 74-75). -/
def total_resources (available_resources : PyDict) : Int :=
  (["ground_teams", "search_dogs", "uavs"].map
    (fun t => dget available_resources t 0)).sum

/-- `_suggest_resource_allocation(prioritized_areas, logistics_data)`
(lines 60-151). -/
def suggest_resource_allocation (prioritized_areas : List PrioritizedArea)
    (logistics_data : LogisticsData) : List AllocationEntry :=
  let available_resources := logistics_data.available_resources
  let r := mainPass available_resources prioritized_areas
  let suggestions := r.1
  let allocated_resources := r.2
  let remaining_resources := computeRemaining available_resources allocated_resources
  if remaining_resources ≠ [] then
    suggestions ++
      [{ area := "Unallocated Resources",
         suggested_resources := remaining_resources.map (fun p => leftoverString p.1 p.2),
         rationale := "These resources are still available and can be deployed as needed." }]
  else if suggestions = [] ∧ total_resources available_resources > 0 then
    suggestions ++
      [{ area := "All areas",
         suggested_resources := ["No specific allocations made based on current prioritization."],
         rationale := "Review prioritization or resource needs." }]
  else if total_resources available_resources = 0 ∧ suggestions = [] then
    suggestions ++
      [{ area := "All areas",
         suggested_resources := ["None - Resources depleted"],
         rationale := "No resources available for allocation." }]
  else suggestions

/-! ## Search-Area Prioritizer validation (`_prioritize_search_areas`, lines 561-586)

The model call and `json.loads` are external; the embedding takes the parsed
value (`none` models a call error or a `JSONDecodeError`, both of which fall
back) and performs the validation of lines 570-577. -/

/-- A parsed JSON value, the shape of `json.loads` output.  `obj` models an
already-parsed Python dict, so its keys are unique. -/
inductive JValue where
  | null
  | bool (b : Bool)
  | num (n : Int)
  | str (s : String)
  | arr (items : List JValue)
  | obj (fields : List (String × JValue))

/-- Python `key in area_data`. -/
def hasKeyJ (fields : List (String × JValue)) (k : String) : Bool :=
  fields.any (fun p => p.1 = k)

/-- Python `area_data[key]` on a dict with unique keys. -/
def objGetJ (fields : List (String × JValue)) (k : String) : Option JValue :=
  match fields with
  | [] => none
  | p :: rest => if p.1 = k then some p.2 else objGetJ rest k

/-- Lines 573-577 for a single list element: it must be a dict containing the
keys `area`, `priority`, `rationale`, and its `priority` value must be one of
the strings `High`, `Medium`, `Low`. -/
def validArea (item : JValue) : Bool :=
  match item with
  | .obj fields =>
      hasKeyJ fields "area" && hasKeyJ fields "priority" && hasKeyJ fields "rationale" &&
      (match objGetJ fields "priority" with
       | some (.str p) => p = "High" || p = "Medium" || p = "Low"
       | _ => false)
  | _ => false

/-- Lines 570-577: the whole validation of the parsed model output. -/
def validatePrioritized (v : JValue) : Bool :=
  match v with
  | .arr items => items.all validArea
  | _ => false

/-- Outcome of `_prioritize_search_areas`: either the parsed model output is
returned, or the deterministic fallback list of
`_prioritize_search_areas_basic_fallback` is substituted. -/
inductive PrioritizeOutcome where
  | parsed (v : JValue)
  | fallbackList

/-- `_prioritize_search_areas` restricted to its decision logic: `none`
models a model-call exception or a JSON parse failure (both caught, lines
580-586), `some v` a successfully parsed response. -/
def prioritize_search_areas (parsed_model_output : Option JValue) : PrioritizeOutcome :=
  match parsed_model_output with
  | none => .fallbackList
  | some v => if validatePrioritized v then .parsed v else .fallbackList

/-! ## Location Typonym Generator (lines 610-650) -/

/-- `_generate_location_typonyms_basic` (lines 610-627). -/
def generate_location_typonyms_basic (location_name : String) : List String :=
  let location_parts := (pySplitComma location_name).map pyStrip
  match location_parts with
  | [] => [location_name]
  | [_] => [location_name]
  | p0 :: p1 :: rest =>
      let plast := (p1 :: rest).getLastD ""
      [location_name, p0 ++ "," ++ plast, plast, p0]

/-- `_generate_location_typonyms_gemini` (lines 630-650): the model call is a
parameter, `none` modelling a raised exception (caught at line 648), `some`
the returned `response.text`, which is split on commas and stripped. -/
def generate_location_typonyms_gemini (location_name : String)
    (model_response : Option String) : List String :=
  match model_response with
  | some gemini_output => (pySplitComma gemini_output).map pyStrip
  | none => generate_location_typonyms_basic location_name

/-! ## Weather Resolution (`WeatherFetcher._get_real_weather_data`, lines 657-697) -/

/-- A single-quote character, used by the source's f-strings. -/
def squote : String := String.singleton (Char.ofNat 39)

/-- Line 682: the diagnostic note attached when `gemini_used_flag` is set. -/
def gemini_note (location_name current_location_name : String) : String :=
  "ORIGINAL NAME: " ++ squote ++ location_name ++ squote ++ " wasn" ++ squote ++
    "t found, Gemini used " ++ squote ++ current_location_name ++ squote ++
    " to get weather info."

/-- Lines 689-692: the structured error message when every candidate fails. -/
def not_found_message (location_name : String) (gemini_used_flag : Bool) : String :=
  "Location " ++ squote ++ location_name ++ squote ++ " and variations not found." ++
  (if gemini_used_flag then " Gemini variations were used but none were successful." else "") ++
  " Please check the location name and try again with a more general or correctly formatted name (e.g., " ++
  squote ++ "City,Country" ++ squote ++ ")."

/-- The error record `{error, gemini_used}` of lines 693 and 697. -/
structure WeatherError where
  error : String
  gemini_used : Bool

/-- The retry loop of lines 676-687: try each candidate in order; `lookup`
models `mgr.weather_at_place`, with `none` for `NotFoundError` (recoverable,
try next).  On success the weather value is returned together with the
optional `gemini_note` (attached exactly when `gemini_used_flag` is set). -/
def tryLocations {W : Type} (lookup : String → Option W) (location_name : String)
    (gemini_used_flag : Bool) : List String → Option (W × Option String)
  | [] => none
  | current_location_name :: rest =>
      match lookup current_location_name with
      | some w =>
          some (w, if gemini_used_flag then
                     some (gemini_note location_name current_location_name)
                   else none)
      | none => tryLocations lookup location_name gemini_used_flag rest

/-- `WeatherFetcher._get_real_weather_data` (lines 657-697), with the weather
service as the `lookup` parameter and the typonym model call as
`model_response`.  (The outer `except` for non-`NotFoundError` exceptions
raised by the weather client is outside the modelled fragment: `lookup` is
total.) -/
def get_real_weather_data {W : Type} (lookup : String → Option W) (location_name : String)
    (use_gemini : Bool) (model_response : Option String) :
    Except WeatherError (W × Option String) :=
  let names0 :=
    if use_gemini then generate_location_typonyms_gemini location_name model_response
    else generate_location_typonyms_basic location_name
  let gemini_used_flag := use_gemini && decide (1 < names0.length)
  let location_names_to_try := if names0 = [] then [location_name] else names0
  match tryLocations lookup location_name gemini_used_flag location_names_to_try with
  | some r => .ok r
  | none => .error ⟨not_found_message location_name gemini_used_flag, gemini_used_flag⟩

/-! ## Search-Area Radius Estimator (`_calculate_search_area`, lines 302-338)

The elapsed time comes from `datetime.now()` (external), so it is a
parameter here; the radius arithmetic is embedded over `ℚ` (the source uses
Python floats, but every constant involved is a dyadic rational on which
float arithmetic is exact). -/

/-- The radius computation of lines 307, 318-329. -/
def calculate_search_radius (experience_level_input : String)
    (time_elapsed_hours : ℚ) : ℚ :=
  let experience_level := pyLower experience_level_input
  let base_radius_km : ℚ :=
    if strContains experience_level "experienced" then 1 + 2
    else if strContains experience_level "novice" || strContains experience_level "beginner" then
      1 + 0.5
    else 1 + 1
  max 1 (base_radius_km + time_elapsed_hours * 0.5)

/-- The radius formula exactly as the spec words it (§4.3): base of 1 km,
plus 2 for "experienced", plus 0.5 for "novice"/"beginner", plus 1 otherwise
(case-insensitive substring match); final radius `max 1 (base + h × 0.5)`.
Stated separately from `calculate_search_radius` so the two can be compared. -/
def radius_spec_formula (experience_level : String) (elapsed_hours : ℚ) : ℚ :=
  let e := pyLower experience_level
  let base : ℚ :=
    1 + (if strContains e "experienced" then 2
         else if strContains e "novice" || strContains e "beginner" then 1 / 2
         else 1)
  max 1 (base + elapsed_hours * (1 / 2))

/-! ## Orchestrator dispatch (`PlanningAgent.process_request`, lines 447-470) -/

/-- The result of `process_request`: a strategy document, a mission plan, or
the structured unknown-action error `{error, requested_action}` of line 466. -/
inductive ProcessResult (S P : Type) where
  | strategy (s : S)
  | plan (p : P)
  | errorUnknown (error : String) (requested_action : Option String)

/-- `process_request` (lines 447-470): the two collaborators
(`_generate_and_format_strategy`, `_create_mission_plan`) are parameters,
and `action` is `message.get("action")` (`none` when the key is absent). -/
def process_request {S P : Type} (generate_and_format_strategy : Unit → S)
    (create_mission_plan : S → P) (action : Option String) : ProcessResult S P :=
  if action = some "generate_strategy" then
    .strategy (generate_and_format_strategy ())
  else if action = some "create_mission_plan" then
    .plan (create_mission_plan (generate_and_format_strategy ()))
  else
    .errorUnknown "Unknown action requested." action

/-! ## Proof-layer definitions -/

/-- The invariant of the allocation pass: the running `allocated_resources`
dict is non-negative and bounded by `available_resources` at every key. -/
def AllocInv (available_resources allocated : PyDict) : Prop :=
  ∀ t, 0 ≤ dget allocated t 0 ∧ dget allocated t 0 ≤ dget available_resources t 0

/-- A parsed model response whose single element carries the three required
keys plus an extra key, used as a concrete validation input. -/
def extraKeyResponse : JValue :=
  .arr [.obj [("area", .str "Trailhead"), ("priority", .str "High"),
              ("rationale", .str "Closest to last known location"),
              ("confidence", .str "high")]]

set_option maxRecDepth 10000

/-! ## Lemmas about the dict operations -/

/-- Setting a key then reading it gives the new value. -/
theorem dget_dset_self (d : PyDict) (k : String) (v : Int) (d₀ : Int) :
    dget (dset d k v) k d₀ = v := by
  induction d with
  | nil => simp [dset, dget]
  | cons p rest ih =>
      by_cases h : p.1 = k
      · simp [dset, dget, h]
      · simp [dset, dget, h, ih]

/-- Setting a key leaves every other key unchanged. -/
theorem dget_dset_ne (d : PyDict) (k t : String) (hne : k ≠ t) (v : Int) (d₀ : Int) :
    dget (dset d k v) t d₀ = dget d t d₀ := by
  induction d with
  | nil => simp [dset, dget, hne]
  | cons p rest ih =>
      by_cases h : p.1 = k
      · simp [dset, dget, h, hne]
      · simp [dset, dget, h, ih]

/-- Reading from the all-zeros initialisation
`{resource: 0 for resource in available_resources}` gives zero. -/
theorem dget_map_zero (d : PyDict) (t : String) :
    dget (d.map (fun p => (p.1, (0 : Int)))) t 0 = 0 := by
  induction d with
  | nil => simp [dget]
  | cons p rest ih =>
      simp only [List.map_cons, dget]
      split <;> simp [ih]

/-- A dict with non-negative values reads non-negative at every key. -/
theorem dget_nonneg (d : PyDict) (h : ∀ p ∈ d, 0 ≤ p.2) (t : String) :
    0 ≤ dget d t 0 := by
  induction d with
  | nil => simp [dget]
  | cons p rest ih =>
      simp only [dget]
      split
      · exact h p (List.mem_cons_self p rest)
      · exact ih (fun q hq => h q (List.mem_cons_of_mem p hq))

/-! ## The allocation invariant -/

/-- One allocation step
`allocated[rt] = allocated.get(rt, 0) + min q (avail - allocated.get(rt, 0))`
preserves the invariant whenever the step is taken (`can_allocate > 0`). -/
theorem allocInv_dset (available_resources allocated : PyDict)
    (hInv : AllocInv available_resources allocated) (rt : String) (q : Int)
    (hpos : 0 < min q (dget available_resources rt 0 - dget allocated rt 0)) :
    AllocInv available_resources
      (dset allocated rt
        (dget allocated rt 0 + min q (dget available_resources rt 0 - dget allocated rt 0))) := by
  intro t
  by_cases h : rt = t
  · subst h
    rw [dget_dset_self]
    have := hInv rt
    omega
  · rw [dget_dset_ne _ _ _ h]
    exact hInv t

/-- The inner needs loop preserves the invariant. -/
theorem allocateForNeeds_inv (available_resources : PyDict) (area_name priority : String)
    (needs : List (String × Int)) :
    ∀ allocated, AllocInv available_resources allocated →
      AllocInv available_resources
        (allocateForNeeds available_resources area_name priority needs allocated).2.2 := by
  induction needs with
  | nil => intro allocated h; simpa [allocateForNeeds] using h
  | cons p rest ih =>
      intro allocated h
      obtain ⟨rt, q⟩ := p
      simp only [allocateForNeeds]
      split
      · exact ih _ (allocInv_dset _ _ h rt q (by assumption))
      · exact ih _ h

/-- One loop iteration over an area preserves the invariant (including the
High-priority secondary ground-team allocation). -/
theorem areaEntry_inv (available_resources allocated : PyDict) (area : PrioritizedArea)
    (h : AllocInv available_resources allocated) :
    AllocInv available_resources (areaEntry available_resources allocated area).2 := by
  unfold areaEntry
  have hbase : AllocInv available_resources
      (match resource_needs area.priority with
        | some needs =>
            allocateForNeeds available_resources area.area area.priority needs allocated
        | none => ([], [], allocated)).2.2 := by
    cases hn : resource_needs area.priority with
    | none => simpa using h
    | some needs =>
        simpa using
          allocateForNeeds_inv available_resources area.area area.priority needs allocated h
  simp only []
  split
  · exact hbase
  · split
    · split
      · rename_i hrem
        have : 0 < min 1 (dget available_resources "ground_teams" 0 -
            dget (match resource_needs area.priority with
              | some needs =>
                  allocateForNeeds available_resources area.area area.priority needs allocated
              | none => ([], [], allocated)).2.2 "ground_teams" 0) := by omega
        exact allocInv_dset _ _ hbase "ground_teams" 1 this
      · exact hbase
    · exact hbase

/-- The whole main pass, started from any invariant-satisfying state,
preserves the invariant. -/
theorem mainFold_inv (available_resources : PyDict) (areas : List PrioritizedArea) :
    ∀ start : List AllocationEntry × PyDict, AllocInv available_resources start.2 →
      AllocInv available_resources
        (areas.foldl (processArea available_resources) start).2 := by
  induction areas with
  | nil => intro s h; simpa using h
  | cons a rest ih =>
      intro s h
      simp only [List.foldl_cons]
      exact ih _ (by simpa [processArea] using areaEntry_inv available_resources s.2 a h)

/-- The initial allocation state satisfies the invariant when availabilities
are non-negative. -/
theorem allocInv_init (available_resources : PyDict)
    (hava : ∀ p ∈ available_resources, 0 ≤ p.2) :
    AllocInv available_resources
      (available_resources.map (fun p => (p.1, (0 : Int)))) := by
  intro t
  rw [dget_map_zero]
  exact ⟨le_refl 0, dget_nonneg available_resources hava t⟩

/-! ## Claim theorems -/

/-- Claim C1: for every prioritized-area list and every logistics record
(non-negative availability counts), the allocation engine never allocates
more units of any resource type than are available.  The source accumulates
the per-type allocated totals in `allocated_resources`, incrementing it by
exactly the count rendered into each emitted entry (lines 93-94 and 120-121),
so the statement bounds that accumulator: starting from any state satisfying
the bound — hence at every point of the pass, not just at the end — both the
per-area fold and the inner needs loop keep `allocated[t] ≤ available[t]`
for every type `t`; in particular the final accumulator of `mainPass` (the
sum of all counts emitted across entries) is bounded by availability. -/
theorem allocation_never_exceeds_availability (available_resources : PyDict)
    (hava : ∀ p ∈ available_resources, 0 ≤ p.2) :
    (∀ (prioritized_areas : List PrioritizedArea) (start : List AllocationEntry × PyDict),
      (∀ t, 0 ≤ dget start.2 t 0 ∧ dget start.2 t 0 ≤ dget available_resources t 0) →
      ∀ t, 0 ≤ dget (prioritized_areas.foldl (processArea available_resources) start).2 t 0 ∧
        dget (prioritized_areas.foldl (processArea available_resources) start).2 t 0 ≤
          dget available_resources t 0) ∧
    (∀ (area_name priority : String) (needs : List (String × Int)) (allocated : PyDict),
      (∀ t, 0 ≤ dget allocated t 0 ∧ dget allocated t 0 ≤ dget available_resources t 0) →
      ∀ t,
        0 ≤ dget (allocateForNeeds available_resources area_name priority needs allocated).2.2 t 0 ∧
        dget (allocateForNeeds available_resources area_name priority needs allocated).2.2 t 0 ≤
          dget available_resources t 0) ∧
    (∀ (prioritized_areas : List PrioritizedArea) (t : String),
      0 ≤ dget (mainPass available_resources prioritized_areas).2 t 0 ∧
      dget (mainPass available_resources prioritized_areas).2 t 0 ≤
        dget available_resources t 0) :=
  ⟨fun areas start hs => mainFold_inv available_resources areas start hs,
   fun an pr needs allocated h => allocateForNeeds_inv available_resources an pr needs allocated h,
   fun areas t => mainFold_inv available_resources areas _ (allocInv_init available_resources hava) t⟩

/-- Witness for C1 at a concrete input: one High-priority area against five
available ground teams. -/
theorem allocation_never_exceeds_availability_witness :
    0 ≤ dget (mainPass [("ground_teams", 5)] [⟨"A", "High", "r"⟩]).2 "ground_teams" 0 ∧
    dget (mainPass [("ground_teams", 5)] [⟨"A", "High", "r"⟩]).2 "ground_teams" 0 ≤
      dget [("ground_teams", 5)] "ground_teams" 0 :=
  (allocation_never_exceeds_availability [("ground_teams", 5)] (by decide)).2.2
    [⟨"A", "High", "r"⟩] "ground_teams"

/-! ## Ordering of the emitted entries -/

/-- One loop iteration appends zero or one entries, and an appended entry is
labelled with this area's name. -/
theorem areaEntry_entries_shape (available_resources allocated : PyDict)
    (area : PrioritizedArea) :
    (areaEntry available_resources allocated area).1 = [] ∨
    ∃ e, (areaEntry available_resources allocated area).1 = [e] ∧ e.area = area.area := by
  unfold areaEntry
  simp only []
  split
  · right; exact ⟨_, rfl, rfl⟩
  · split
    · split
      · right; exact ⟨_, rfl, rfl⟩
      · left; rfl
    · left; rfl

/-- Starting the fold with accumulated entries `s` just prepends `s`. -/
theorem mainFold_entries (available_resources : PyDict) (areas : List PrioritizedArea) :
    ∀ (s : List AllocationEntry) (a : PyDict),
      areas.foldl (processArea available_resources) (s, a) =
        (s ++ (areas.foldl (processArea available_resources) ([], a)).1,
         (areas.foldl (processArea available_resources) ([], a)).2) := by
  induction areas with
  | nil => intro s a; simp
  | cons x xs ih =>
      intro s a
      simp only [List.foldl_cons, processArea]
      rw [ih (s ++ (areaEntry available_resources a x).1) (areaEntry available_resources a x).2,
          ih ([] ++ (areaEntry available_resources a x).1) (areaEntry available_resources a x).2]
      simp

/-- The area names of the emitted per-area entries form a sublist of the
input area names: each area is visited at most once, in input order. -/
theorem mainFold_area_names (available_resources : PyDict) (areas : List PrioritizedArea) :
    ∀ a : PyDict,
      (((areas.foldl (processArea available_resources) ([], a)).1).map
        AllocationEntry.area).Sublist (areas.map PrioritizedArea.area) := by
  induction areas with
  | nil => intro a; simp
  | cons x xs ih =>
      intro a
      simp only [List.foldl_cons, processArea, List.nil_append, List.map_cons]
      rw [mainFold_entries available_resources xs
        (areaEntry available_resources a x).1 (areaEntry available_resources a x).2]
      rcases areaEntry_entries_shape available_resources a x with h | ⟨e, h, he⟩
      · simp only [h, List.nil_append]
        exact (ih _).cons _
      · simp only [h, List.singleton_append, List.map_cons, he]
        exact (ih _).cons₂ _

/-- Claim C5: the allocation engine visits areas in the given input order,
emitting at most one entry per area, so the per-area entries of the output
(the `mainPass` prefix) carry area names forming a sublist of the input area
names; the synthetic entries (`Unallocated Resources`, `All areas`) are the
tail appended after all per-area entries. -/
theorem allocation_preserves_area_order (prioritized_areas : List PrioritizedArea)
    (logistics_data : LogisticsData) :
    ∃ tail,
      suggest_resource_allocation prioritized_areas logistics_data =
        (mainPass logistics_data.available_resources prioritized_areas).1 ++ tail ∧
      ((mainPass logistics_data.available_resources prioritized_areas).1.map
          AllocationEntry.area).Sublist (prioritized_areas.map PrioritizedArea.area) ∧
      ∀ e ∈ tail, e.area = "Unallocated Resources" ∨ e.area = "All areas" := by
  have hsub := mainFold_area_names logistics_data.available_resources prioritized_areas
    (logistics_data.available_resources.map (fun p => (p.1, (0 : Int))))
  unfold suggest_resource_allocation
  simp only []
  split
  · exact ⟨_, rfl, hsub, by intro e he; simp at he; simp [he]⟩
  · split
    · exact ⟨_, rfl, hsub, by intro e he; simp at he; simp [he]⟩
    · split
      · exact ⟨_, rfl, hsub, by intro e he; simp at he; simp [he]⟩
      · exact ⟨[], by simp, hsub, by intro e he; simp at he⟩

/-- Claim C10: for every prioritized-area list and every logistics record
with non-negative availability counts the engine returns a non-empty list;
when no per-area entry was emitted and no leftover remains, the synthetic
`All areas` entry is emitted — the "no specific allocations" variant when
the tracked total is positive, the "Resources depleted" variant when it is
zero. -/
theorem allocation_output_nonempty (prioritized_areas : List PrioritizedArea)
    (logistics_data : LogisticsData)
    (hava : ∀ p ∈ logistics_data.available_resources, 0 ≤ p.2) :
    suggest_resource_allocation prioritized_areas logistics_data ≠ [] ∧
    ((mainPass logistics_data.available_resources prioritized_areas).1 = [] →
      computeRemaining logistics_data.available_resources
          (mainPass logistics_data.available_resources prioritized_areas).2 = [] →
      (0 < total_resources logistics_data.available_resources →
        suggest_resource_allocation prioritized_areas logistics_data =
          [⟨"All areas", ["No specific allocations made based on current prioritization."],
            "Review prioritization or resource needs."⟩]) ∧
      (total_resources logistics_data.available_resources = 0 →
        suggest_resource_allocation prioritized_areas logistics_data =
          [⟨"All areas", ["None - Resources depleted"],
            "No resources available for allocation."⟩])) := by
  have htot : 0 ≤ total_resources logistics_data.available_resources := by
    have h1 := dget_nonneg logistics_data.available_resources hava "ground_teams"
    have h2 := dget_nonneg logistics_data.available_resources hava "search_dogs"
    have h3 := dget_nonneg logistics_data.available_resources hava "uavs"
    simp only [total_resources, List.map_cons, List.map_nil, List.sum_cons, List.sum_nil]
    omega
  constructor
  · unfold suggest_resource_allocation
    simp only []
    split
    · simp
    · split
      · simp
      · split
        · simp
        · rename_i h1 h2 h3
          intro hcon
          rw [hcon] at h2 h3
          simp at h2 h3
          omega
  · intro hmain hrem
    unfold suggest_resource_allocation
    simp only []
    constructor
    · intro hpos
      rw [if_neg (by simp [hrem]), if_pos ⟨hmain, hpos⟩]
      simp [hmain]
    · intro hz
      rw [if_neg (by simp [hrem]), if_neg (by simp [hz]), if_pos ⟨hz, hmain⟩]
      simp [hmain]

/-- Witness for C10 at the fully empty input: no areas and an empty resource
mapping still yield the depleted `All areas` entry. -/
theorem allocation_output_nonempty_witness :
    suggest_resource_allocation [] ⟨[]⟩ ≠ [] :=
  (allocation_output_nonempty [] ⟨[]⟩ (by decide)).1

/-- Claim C2: with `{ground_teams: 5, search_dogs: 2, uavs: 3}` and areas
`[(A, High), (B, Medium), (C, Low)]` the engine allocates 2 ground teams,
1 search dog and 1 uav to A; 1 ground team and 1 uav to B; 1 ground team to
C; and emits exactly one `Unallocated Resources` entry listing the leftover
1 ground team, 1 search dog and 1 uav (the leftover ground-team string is
rendered by line 136 of the source as `1 ground_teams(s) (ground_teams)`). -/
theorem allocation_scenario_five_two_three :
    suggest_resource_allocation
        [⟨"A", "High", "r1"⟩, ⟨"B", "Medium", "r2"⟩, ⟨"C", "Low", "r3"⟩]
        ⟨[("ground_teams", 5), ("search_dogs", 2), ("uavs", 3)]⟩ =
      [{ area := "A",
         suggested_resources := ["2 team(s) (ground_teams)", "1 unit(s) (search_dogs)",
                                 "1 unit(s) (uavs)"],
         rationale := "Allocated 2 team(s) of ground_teams based on High priority and availability. Allocated 1 unit(s) of search_dogs based on High priority and availability. Allocated 1 unit(s) of uavs based on High priority and availability." },
       { area := "B",
         suggested_resources := ["1 team(s) (ground_teams)", "1 unit(s) (uavs)"],
         rationale := "Allocated 1 team(s) of ground_teams based on Medium priority and availability. Allocated 1 unit(s) of uavs based on Medium priority and availability." },
       { area := "C",
         suggested_resources := ["1 team(s) (ground_teams)"],
         rationale := "Allocated 1 team(s) of ground_teams based on Low priority and availability." },
       { area := "Unallocated Resources",
         suggested_resources := ["1 ground_teams(s) (ground_teams)", "1 unit(s) (search_dogs)",
                                 "1 unit(s) (uavs)"],
         rationale := "These resources are still available and can be deployed as needed." }] := by
  decide

/-- Claim C3, evaluated at the failing input: with one leftover ground team
the `Unallocated Resources` entry renders the string
`1 ground_teams(s) (ground_teams)` — line 136 interpolates the resource
*name* as the unit word — whereas the unit-word rule of line 92
(`resource_unit`) renders types containing `team` with the word `team`, so
the leftover list contradicts the claimed rule. -/
theorem leftover_label_uses_resource_name :
    suggest_resource_allocation [] ⟨[("ground_teams", 1)]⟩ =
      [{ area := "Unallocated Resources",
         suggested_resources := ["1 ground_teams(s) (ground_teams)"],
         rationale := "These resources are still available and can be deployed as needed." }] ∧
    resource_unit "ground_teams" = "team" ∧
    "1 ground_teams(s) (ground_teams)" ≠
      "1 " ++ resource_unit "ground_teams" ++ "(s) (ground_teams)" := by
  decide

/-! ## Prioritizer validation theorems -/

/-- Characterisation of the per-element validation: key *presence* (not
exactness) plus the priority enum. -/
theorem validArea_iff (item : JValue) :
    validArea item = true ↔
      ∃ fields, item = JValue.obj fields ∧
        hasKeyJ fields "area" = true ∧ hasKeyJ fields "priority" = true ∧
        hasKeyJ fields "rationale" = true ∧
        ∃ p, objGetJ fields "priority" = some (JValue.str p) ∧
          (p = "High" ∨ p = "Medium" ∨ p = "Low") := by
  cases item with
  | obj fields =>
      simp only [validArea, Bool.and_eq_true, JValue.obj.injEq]
      constructor
      · rintro ⟨⟨⟨ha, hp⟩, hr⟩, hm⟩
        refine ⟨fields, rfl, ha, hp, hr, ?_⟩
        cases hg : objGetJ fields "priority" with
        | none => rw [hg] at hm; simp at hm
        | some jv =>
            cases jv <;> rw [hg] at hm <;> simp at hm
            rename_i p
            exact ⟨p, rfl, by tauto⟩
      · rintro ⟨fields2, heq, ha, hp, hr, p, hg, hps⟩
        cases heq
        refine ⟨⟨⟨ha, hp⟩, hr⟩, ?_⟩
        rw [hg]
        simp only [Bool.or_eq_true, decide_eq_true_eq]
        tauto
  | null => simp [validArea]
  | bool b => simp [validArea]
  | num n => simp [validArea]
  | str s => simp [validArea]
  | arr l => simp [validArea]

/-- Claim C4 amended: the validation accepts a parsed response exactly when
it is a list whose every element is an object *containing* the keys `area`,
`priority`, `rationale` (additional keys are permitted, since line 573 only
checks membership) with `priority` one of `High`/`Medium`/`Low`; acceptance
returns the parsed response, any validation failure returns the fallback. -/
theorem validation_requires_only_key_presence :
    (∀ v : JValue, validatePrioritized v = true ↔
      ∃ items, v = JValue.arr items ∧ ∀ item ∈ items, ∃ fields,
        item = JValue.obj fields ∧
        hasKeyJ fields "area" = true ∧ hasKeyJ fields "priority" = true ∧
        hasKeyJ fields "rationale" = true ∧
        ∃ p, objGetJ fields "priority" = some (JValue.str p) ∧
          (p = "High" ∨ p = "Medium" ∨ p = "Low")) ∧
    (∀ v, prioritize_search_areas (some v) = .parsed v ↔ validatePrioritized v = true) ∧
    (∀ v, validatePrioritized v = false →
      prioritize_search_areas (some v) = .fallbackList) := by
  refine ⟨?_, ?_, ?_⟩
  · intro v
    cases v with
    | arr items => simp [validatePrioritized, List.all_eq_true, validArea_iff]
    | null => simp [validatePrioritized]
    | bool b => simp [validatePrioritized]
    | num n => simp [validatePrioritized]
    | str s => simp [validatePrioritized]
    | obj fields => simp [validatePrioritized]
  · intro v
    by_cases hv : validatePrioritized v = true
    · simp [prioritize_search_areas, hv]
    · simp [prioritize_search_areas, hv]
  · intro v hv
    simp [prioritize_search_areas, hv]

/-- Witness for the amended C4: a non-list response is rejected and the
fallback is returned. -/
theorem validation_requires_only_key_presence_witness :
    prioritize_search_areas (some JValue.null) = .fallbackList :=
  validation_requires_only_key_presence.2.2 JValue.null rfl

/-- Claim C4 counterexample: a parsed list whose element carries the three
required keys plus the extra key `confidence` passes the validation and the
parsed response — not the fallback — is returned, contradicting the claim
that any extra key forces the fallback. -/
theorem validation_accepts_extra_keys :
    validatePrioritized extraKeyResponse = true ∧
    prioritize_search_areas (some extraKeyResponse) = .parsed extraKeyResponse :=
  ⟨rfl, rfl⟩

/-! ## Weather resolution theorems -/

/-- The retry loop attaches the diagnostic note exactly when the flag is
set, regardless of which candidate succeeded. -/
theorem tryLocations_note {W : Type} (lookup : String → Option W) (location_name : String)
    (flag : Bool) (names : List String) (w : W) (note : Option String)
    (h : tryLocations lookup location_name flag names = some (w, note)) :
    note.isSome = flag := by
  induction names with
  | nil => simp [tryLocations] at h
  | cons n rest ih =>
      simp only [tryLocations] at h
      cases hl : lookup n with
      | some w2 =>
          rw [hl] at h
          simp only [Option.some.injEq, Prod.mk.injEq] at h
          rw [← h.2]
          cases flag <;> simp
      | none =>
          rw [hl] at h
          exact ih h

/-- Claim C6 amended: on a successful lookup the diagnostic note is attached
if and only if `gemini_used_flag` is set, i.e. exactly when `use_gemini`
holds and the assisted candidate list has length greater than one — not when
the successful name differs from the original; and the error record's
`gemini_used` equals the same flag. -/
theorem note_iff_gemini_flag {W : Type} (lookup : String → Option W) (location_name : String)
    (use_gemini : Bool) (model_response : Option String) :
    (∀ (w : W) (note : Option String),
      get_real_weather_data lookup location_name use_gemini model_response = .ok (w, note) →
      note.isSome = (use_gemini && decide (1 <
        (if use_gemini then generate_location_typonyms_gemini location_name model_response
         else generate_location_typonyms_basic location_name).length))) ∧
    (∀ e, get_real_weather_data lookup location_name use_gemini model_response = .error e →
      e.gemini_used = (use_gemini && decide (1 <
        (if use_gemini then generate_location_typonyms_gemini location_name model_response
         else generate_location_typonyms_basic location_name).length))) := by
  constructor
  · intro w note h
    unfold get_real_weather_data at h
    simp only [] at h
    cases ht : tryLocations lookup location_name _ _ with
    | some r =>
        rw [ht] at h
        simp only [Except.ok.injEq] at h
        subst h
        exact tryLocations_note lookup location_name _ _ w note ht
    | none => rw [ht] at h; simp at h
  · intro e h
    unfold get_real_weather_data at h
    simp only [] at h
    cases ht : tryLocations lookup location_name _ _ with
    | some r => rw [ht] at h; simp at h
    | none =>
        rw [ht] at h
        simp only [Except.error.injEq] at h
        rw [← h]

/-- Witness for the amended C6: with the deterministic generator and a
lookup that always fails, the error record carries `gemini_used = false`. -/
theorem note_iff_gemini_flag_witness :
    (WeatherError.mk (not_found_message "X" false) false).gemini_used =
      (false && decide (1 <
        (if false then generate_location_typonyms_gemini "X" none
         else generate_location_typonyms_basic "X").length)) :=
  (note_iff_gemini_flag (fun _ => (none : Option Unit)) "X" false none).2
    ⟨not_found_message "X" false, false⟩ rfl

/-- Claim C6 counterexample: the assisted candidate list
`["Paris", "France"]` has length two, the lookup succeeds on the *first*
candidate `Paris` — identical to the original input — yet the diagnostic
note is attached, contradicting the claimed "iff the successful name
differs" condition. -/
theorem note_attached_without_substitution :
    get_real_weather_data (fun n => if n = "Paris" then some () else none) "Paris" true
        (some "Paris, France") =
      .ok ((), some (gemini_note "Paris" "Paris")) ∧
    (fun n => if n = "Paris" then some () else none : String → Option Unit) "Paris" =
      some () :=
  ⟨rfl, rfl⟩

/-! ## Radius estimator theorem -/

/-- Claim C7: the radius computation agrees with the spec formula
`max 1 (base + elapsed_hours × 0.5)` with base 1 km plus 2 for
"experienced", plus 0.5 for "novice"/"beginner", plus 1 otherwise
(case-insensitive substring match); and at elapsed 0 hours with experience
"novice" the radius is exactly 1.5 km. -/
theorem search_radius_formula :
    (∀ (experience_level : String) (elapsed_hours : ℚ),
      calculate_search_radius experience_level elapsed_hours =
        radius_spec_formula experience_level elapsed_hours) ∧
    calculate_search_radius "novice" 0 = 3 / 2 := by
  constructor
  · intro e h
    simp only [calculate_search_radius, radius_spec_formula]
    split_ifs <;> norm_num
  · have h1 : strContains (pyLower "novice") "experienced" = false := by decide
    have h2 : strContains (pyLower "novice") "novice" = true := by decide
    simp only [calculate_search_radius, h1, h2]
    norm_num

/-! ## Typonym generator theorems -/

/-- Claim C8 counterexample: a model call that returns the empty string
(without raising) yields `[""]`, not the deterministic generator's list. -/
theorem gemini_empty_response_not_fallback :
    generate_location_typonyms_gemini "Paris" (some "") = [""] ∧
    generate_location_typonyms_basic "Paris" = ["Paris"] ∧
    generate_location_typonyms_gemini "Paris" (some "") ≠
      generate_location_typonyms_basic "Paris" := by
  decide

/-- Claim C8 amended: the assisted generator falls back to the deterministic
generator exactly on a raised model-call error; a returned response — empty
or not — is split on commas and stripped, and returned as-is. -/
theorem gemini_fallback_on_call_error :
    (∀ location_name, generate_location_typonyms_gemini location_name none =
      generate_location_typonyms_basic location_name) ∧
    (∀ location_name gemini_output,
      generate_location_typonyms_gemini location_name (some gemini_output) =
        (pySplitComma gemini_output).map pyStrip) :=
  ⟨fun _ => rfl, fun _ _ => rfl⟩

/-! ## Orchestrator dispatch theorem -/

/-- Claim C9: any action other than `generate_strategy` and
`create_mission_plan` is rejected with the structured error
`{error: "Unknown action requested.", requested_action: action}`, and the
result does not depend on the collaborators — they are not invoked. -/
theorem unknown_action_rejected {S P : Type} (g1 g2 : Unit → S) (c1 c2 : S → P)
    (action : Option String)
    (h1 : action ≠ some "generate_strategy") (h2 : action ≠ some "create_mission_plan") :
    process_request g1 c1 action =
      ProcessResult.errorUnknown "Unknown action requested." action ∧
    process_request g1 c1 action = process_request g2 c2 action := by
  unfold process_request
  rw [if_neg h1, if_neg h2, if_neg h1, if_neg h2]
  exact ⟨rfl, rfl⟩

/-- Witness for C9 at the unknown action `foo`. -/
theorem unknown_action_rejected_witness :
    process_request (fun _ => (0 : Nat)) (fun s => s + 1) (some "foo") =
      ProcessResult.errorUnknown "Unknown action requested." (some "foo") ∧
    process_request (fun _ => (0 : Nat)) (fun s => s + 1) (some "foo") =
      process_request (fun _ => (1 : Nat)) (fun s => s + 2) (some "foo") :=
  unknown_action_rejected (fun _ => (0 : Nat)) (fun _ => (1 : Nat))
    (fun s => s + 1) (fun s => s + 2) (some "foo") (by decide) (by decide)
